import Mathlib

/-!
Verification of `be/src/exec/text-converter.cc` (Impala text converter).

Two components are embedded:

* `unescapeLoop` / `unescapeString` — a shallow embedding of
  `TextConverter::UnescapeString(const char* src, char* dest, int* len)`
  (lines 30-48).  Bytes are modelled as `Nat`; the source buffer is a
  `List Nat`; the result list is the sequence of bytes written to `dest`,
  so its length is the resulting `*len`.

* `codegenWriteSlot` / `writeSlotRun` — a shallow embedding of
  `TextConverter::CodegenWriteSlot` (lines 76-190).  `codegenWriteSlot`
  models generation: it returns `none` exactly where the C++ returns
  `NULL` (string slot with an escape character configured, failure of the
  tuple-struct codegen, failure of the null-marking codegen, an
  unsupported slot type, or failure of function finalization); otherwise
  it returns the specialized routine.  `writeSlotRun` models the runtime
  behaviour of the generated routine: the control flow of the emitted IR
  (entry / set_null / parse_slot / parse_success / parse_fail blocks).
-/

namespace Impala.TextConverter

/-- One step of the scan in `TextConverter::UnescapeString`: the loop
carries the flag `escape_next_char`; a byte equal to the escape byte
toggles the flag, any other byte clears it; if the flag is then set the
byte is consumed without being copied, otherwise it is copied to the
destination. -/
def unescapeLoop (esc : Nat) : List Nat → Bool → List Nat
  | [], _ => []
  | b :: rest, f =>
    let f2 : Bool := if b = esc then !f else false
    if f2 then unescapeLoop esc rest f2
    else b :: unescapeLoop esc rest f2

/-- `TextConverter::UnescapeString` on a whole buffer: the scan starts
with `escape_next_char = false`. -/
def unescapeString (esc : Nat) (src : List Nat) : List Nat :=
  unescapeLoop esc src false

/-- The value of the `escape_next_char` flag after scanning a list of
bytes starting from flag state `f`. -/
def escStateFrom (esc : Nat) (f : Bool) : List Nat → Bool
  | [] => f
  | b :: rest => escStateFrom esc (if b = esc then !f else false) rest

theorem unescapeLoop_append (esc : Nat) (xs ys : List Nat) (f : Bool) :
    unescapeLoop esc (xs ++ ys) f =
      unescapeLoop esc xs f ++ unescapeLoop esc ys (escStateFrom esc f xs) := by
  induction xs generalizing f with
  | nil => rfl
  | cons b rest ih =>
    simp only [List.cons_append, unescapeLoop, escStateFrom]
    by_cases hb : (if b = esc then !f else false) = true
    · simp [hb, ih]
    · simp [hb, ih]

theorem unescapeLoop_length_le (esc : Nat) (src : List Nat) :
    ∀ f, (unescapeLoop esc src f).length ≤ src.length := by
  induction src with
  | nil => intro f; simp [unescapeLoop]
  | cons b rest ih =>
    intro f
    simp only [unescapeLoop]
    by_cases hb : (if b = esc then !f else false) = true
    · simp only [hb, if_pos]
      exact Nat.le_succ_of_le (ih _)
    · simp only [hb, if_neg, Bool.not_eq_true]
      simp only [List.length_cons]
      exact Nat.succ_le_succ (ih _)

theorem unescapeLoop_of_not_mem (esc : Nat) (src : List Nat) (h : esc ∉ src) :
    unescapeLoop esc src false = src := by
  induction src with
  | nil => rfl
  | cons b rest ih =>
    simp only [List.mem_cons, not_or] at h
    have hb : ¬ b = esc := fun hc => h.1 hc.symm
    simp [unescapeLoop, hb, ih h.2]

theorem escStateFrom_of_not_mem (esc : Nat) (src : List Nat) (h : esc ∉ src) :
    escStateFrom esc false src = false := by
  induction src with
  | nil => rfl
  | cons b rest ih =>
    simp only [List.mem_cons, not_or] at h
    have hb : ¬ b = esc := fun hc => h.1 hc.symm
    simp [escStateFrom, hb, ih h.2]

theorem unescapeLoop_length_lt_of_mem (esc : Nat) (src : List Nat)
    (h : esc ∈ src) : (unescapeLoop esc src false).length < src.length := by
  induction src with
  | nil => cases h
  | cons b rest ih =>
    by_cases hb : b = esc
    · have h2 : (if b = esc then !false else false) = true := by simp [hb]
      simp only [unescapeLoop, h2, if_true, List.length_cons]
      exact Nat.lt_succ_of_le (unescapeLoop_length_le esc rest true)
    · have hr : esc ∈ rest := by
        rcases List.mem_cons.mp h with hc | hr
        · exact absurd hc.symm hb
        · exact hr
      have h2 : (if b = esc then !false else false) = false := by simp [hb]
      simp only [unescapeLoop, h2, Bool.false_eq_true, if_false, List.length_cons]
      exact Nat.succ_lt_succ (ih hr)

/-- The slot logical types that `CodegenWriteSlot` dispatches on
(`slot_desc->type()`): the seven scalar cases of the `switch`, the string
case, and a catch-all for every other type (the `default:` branch). -/
inductive PrimitiveType where
  | TYPE_BOOLEAN
  | TYPE_TINYINT
  | TYPE_SMALLINT
  | TYPE_INT
  | TYPE_BIGINT
  | TYPE_FLOAT
  | TYPE_DOUBLE
  | TYPE_STRING
  | TYPE_OTHER
deriving DecidableEq, Repr

open PrimitiveType

/-- True for the seven scalar types handled by the `switch` in
`CodegenWriteSlot` (lines 128-153); `default:` hits `DCHECK(false)` and
returns `NULL`. -/
def isSupportedScalar : PrimitiveType → Bool
  | TYPE_BOOLEAN => true
  | TYPE_TINYINT => true
  | TYPE_SMALLINT => true
  | TYPE_INT => true
  | TYPE_BIGINT => true
  | TYPE_FLOAT => true
  | TYPE_DOUBLE => true
  | _ => false

/-- The storage region of one slot inside the tuple: its null
indicator, its scalar value bytes (abstracted to `Int`), and — for a
string slot — its two machine words (pointer, length). -/
structure TupleSlot where
  null_bit : Bool
  bytes : Int
  str_ptr : Nat
  str_len : Nat
deriving DecidableEq, Repr

/-- Modelled from the spec: the external null-marking routine produced by
`slot_desc->CodegenUpdateNull(codegen, tuple_type, true)` (its body lives
in `runtime/descriptors.cc`, outside the given sources); per the spec it
"sets that slot's null indicator" and touches nothing else. -/
def setNull (t : TupleSlot) : TupleSlot :=
  { t with null_bit := true }

/-- `StringParser::PARSE_FAILURE` status code compared against
`parse_result` in the generated IR; its numeric value is 1 per the IR
comment in the source (`%failed = icmp eq i32 %parse_result1, 1`). -/
def PARSE_FAILURE : Nat := 1

/-- The artifact of a successful `CodegenWriteSlot`: a `WriteSlot`
function specialized to one slot's logical type. -/
structure GeneratedRoutine where
  slotType : PrimitiveType
deriving DecidableEq, Repr

/-- `TextConverter::CodegenWriteSlot` as a generation-time decision:
`none` wherever the C++ returns `NULL`.  In source order: a string slot
with a non-`'\0'` escape character is refused (lines 82-86);
`tuple_desc->GenerateLlvmStruct` failure propagates (line 89);
`slot_desc->CodegenUpdateNull` failure propagates (lines 92-96); an
unsupported slot type hits the `switch` default and returns `NULL`
(lines 150-152); `codegen->FinalizeFunction` may fail (line 189).  The
three external success/failure outcomes are abstracted as booleans. -/
def codegenWriteSlot (escape_char : Nat) (slot_type : PrimitiveType)
    (tuple_type_ok set_null_ok finalize_ok : Bool) : Option GeneratedRoutine :=
  if slot_type = TYPE_STRING ∧ escape_char ≠ 0 then none
  else if tuple_type_ok = false then none
  else if set_null_ok = false then none
  else if slot_type = TYPE_STRING ∨ isSupportedScalar slot_type = true then
    if finalize_ok then some ⟨slot_type⟩ else none
  else none

/-- Runtime behaviour of the generated `WriteSlot` routine, following the
emitted control flow (see the IR comment at lines 50-75 and the builder
calls at lines 108-187): if `len == 0`, branch to `set_null` (call the
null-marking routine, return true); otherwise branch to `parse_slot`;
for a string slot store the data pointer and the length into the slot's
two words and return true; for a scalar slot call the type-specific
parse function (abstracted as `parse`, returning the parsed value and
the status it writes through `parse_result`), and if the status equals
`PARSE_FAILURE` call the null-marking routine and return false, else
store the parsed value into the slot and return true. -/
def writeSlotRun (r : GeneratedRoutine) (parse : Nat → Nat → Int × Nat)
    (tuple : TupleSlot) (data len : Nat) : TupleSlot × Bool :=
  if len = 0 then
    (setNull tuple, true)
  else if r.slotType = TYPE_STRING then
    ({ tuple with str_ptr := data, str_len := len }, true)
  else
    let result := parse data len
    if result.2 = PARSE_FAILURE then (setNull tuple, false)
    else ({ tuple with bytes := result.1 }, true)

theorem isSupportedScalar_ne_string (ty : PrimitiveType)
    (h : isSupportedScalar ty = true) : ty ≠ TYPE_STRING := by
  cases ty <;> simp_all [isSupportedScalar]

/-- Claim C1: for every supported scalar (non-string) slot type and every
non-empty field, the generated routine invokes the type-specific parser;
on success it stores the parsed value into the slot and returns true; on
failure it marks the slot null via the null-marking routine and returns
false, leaving the slot's value bytes unwritten. -/
theorem scalar_slot_parse_outcome (ty : PrimitiveType)
    (hty : isSupportedScalar ty = true) (parse : Nat → Nat → Int × Nat)
    (t : TupleSlot) (data len : Nat) (hlen : 0 < len) :
    ((parse data len).2 ≠ PARSE_FAILURE →
      writeSlotRun ⟨ty⟩ parse t data len =
        ({ t with bytes := (parse data len).1 }, true)) ∧
    ((parse data len).2 = PARSE_FAILURE →
      writeSlotRun ⟨ty⟩ parse t data len = (setNull t, false) ∧
      (writeSlotRun ⟨ty⟩ parse t data len).1.bytes = t.bytes ∧
      (writeSlotRun ⟨ty⟩ parse t data len).1.null_bit = true) := by
  have hstr := isSupportedScalar_ne_string ty hty
  have hl : ¬ len = 0 := Nat.pos_iff_ne_zero.mp hlen
  constructor
  · intro hok
    simp [writeSlotRun, hl, hstr, hok]
  · intro hfail
    refine ⟨by simp [writeSlotRun, hl, hstr, hfail], ?_, ?_⟩
    · simp [writeSlotRun, hl, hstr, hfail, setNull]
    · simp [writeSlotRun, hl, hstr, hfail, setNull]

theorem scalar_slot_parse_outcome_witness :
    isSupportedScalar TYPE_INT = true ∧ 0 < 3 ∧
    writeSlotRun ⟨TYPE_INT⟩ (fun _ _ => ((123 : Int), 0))
        ⟨false, 0, 0, 0⟩ 5 3 =
      ({ null_bit := false, bytes := 123, str_ptr := 0, str_len := 0 }, true) :=
  ⟨by decide, by decide,
    (scalar_slot_parse_outcome TYPE_INT (by decide)
        (fun _ _ => ((123 : Int), 0)) ⟨false, 0, 0, 0⟩ 5 3 (by decide)).1
      (by decide)⟩

/-- Claim C2: for every slot type, when the generated routine is invoked
with field length 0 it marks the slot null via the null-marking routine
and returns true, without attempting any parse (the result does not
depend on the parser) or store (every value field is unchanged). -/
theorem empty_field_marks_null (ty : PrimitiveType)
    (parse parse2 : Nat → Nat → Int × Nat) (t : TupleSlot) (data : Nat) :
    writeSlotRun ⟨ty⟩ parse t data 0 = (setNull t, true) ∧
    writeSlotRun ⟨ty⟩ parse t data 0 = writeSlotRun ⟨ty⟩ parse2 t data 0 ∧
    (writeSlotRun ⟨ty⟩ parse t data 0).1.null_bit = true ∧
    (writeSlotRun ⟨ty⟩ parse t data 0).1.bytes = t.bytes ∧
    (writeSlotRun ⟨ty⟩ parse t data 0).1.str_ptr = t.str_ptr ∧
    (writeSlotRun ⟨ty⟩ parse t data 0).1.str_len = t.str_len := by
  simp [writeSlotRun, setNull]

/-- Claim C3: for a string-typed slot with no escaping configured
(escape byte 0), generation succeeds, and for every non-empty field the
generated routine stores the field pointer and the field length
unchanged into the slot's (pointer, length) pair and returns true. -/
theorem string_slot_zero_copy (parse : Nat → Nat → Int × Nat)
    (t : TupleSlot) (data len : Nat) (hlen : len ≠ 0) :
    codegenWriteSlot 0 TYPE_STRING true true true = some ⟨TYPE_STRING⟩ ∧
    writeSlotRun ⟨TYPE_STRING⟩ parse t data len =
      ({ t with str_ptr := data, str_len := len }, true) := by
  constructor
  · rfl
  · simp [writeSlotRun, hlen]

theorem string_slot_zero_copy_witness :
    (5 : Nat) ≠ 0 ∧
    (codegenWriteSlot 0 TYPE_STRING true true true = some ⟨TYPE_STRING⟩ ∧
     writeSlotRun ⟨TYPE_STRING⟩ (fun _ _ => ((0 : Int), 0))
         ⟨false, 0, 0, 0⟩ 7 5 =
       ({ null_bit := false, bytes := 0, str_ptr := 7, str_len := 5 }, true)) :=
  ⟨by decide,
    string_slot_zero_copy (fun _ _ => ((0 : Int), 0)) ⟨false, 0, 0, 0⟩ 7 5
      (by decide)⟩

/-- Claim C4: for a string-typed slot with a non-zero escape byte
configured, generation returns no routine (`none`), whatever the
outcomes of the external collaborators. -/
theorem codegen_refuses_escaped_string (esc : Nat) (h : esc ≠ 0)
    (a b c : Bool) :
    codegenWriteSlot esc TYPE_STRING a b c = none := by
  simp [codegenWriteSlot, h]

theorem codegen_refuses_escaped_string_witness :
    (92 : Nat) ≠ 0 ∧
    codegenWriteSlot 92 TYPE_STRING true true true = none :=
  ⟨by decide, codegen_refuses_escaped_string 92 (by decide) true true true⟩

/-- Claim C5: on every byte sequence containing no occurrence of the
configured escape byte, unescape is the identity and the resulting
length equals the input length. -/
theorem unescape_identity_without_escape (esc : Nat) (src : List Nat)
    (h : esc ∉ src) :
    unescapeString esc src = src ∧
    (unescapeString esc src).length = src.length := by
  have hid := unescapeLoop_of_not_mem esc src h
  exact ⟨hid, by simp [unescapeString, hid]⟩

theorem unescape_identity_without_escape_witness :
    (92 : Nat) ∉ ([104, 101, 108, 108, 111] : List Nat) ∧
    (unescapeString 92 [104, 101, 108, 108, 111] = [104, 101, 108, 108, 111] ∧
     (unescapeString 92 [104, 101, 108, 108, 111]).length =
       ([104, 101, 108, 108, 111] : List Nat).length) :=
  ⟨by decide, unescape_identity_without_escape 92 [104, 101, 108, 108, 111]
    (by decide)⟩

/-- Claim C6: wherever the scan, in unescaped state, meets two
consecutive escape bytes, it emits exactly one literal escape byte for
the pair and continues in unescaped state. -/
theorem escape_pair_collapses (esc : Nat) (pre suf : List Nat)
    (h : escStateFrom esc false pre = false) :
    unescapeString esc (pre ++ esc :: esc :: suf) =
      unescapeLoop esc pre false ++ esc :: unescapeLoop esc suf false := by
  rw [unescapeString, unescapeLoop_append esc pre (esc :: esc :: suf) false, h]
  congr 1
  simp [unescapeLoop]

theorem escape_pair_collapses_witness :
    escStateFrom 92 false [97] = false ∧
    unescapeString 92 ([97] ++ 92 :: 92 :: [98]) =
      unescapeLoop 92 [97] false ++ 92 :: unescapeLoop 92 [98] false :=
  ⟨by decide, escape_pair_collapses 92 [97] [98] (by decide)⟩

/-- Claim C7: a lone trailing escape byte (one the scan reaches in
unescaped state as the final byte) is consumed and contributes no output
byte. -/
theorem trailing_escape_dropped (esc : Nat) (pre : List Nat)
    (h : escStateFrom esc false pre = false) :
    unescapeString esc (pre ++ [esc]) = unescapeString esc pre := by
  rw [unescapeString, unescapeLoop_append esc pre [esc] false, h]
  simp [unescapeLoop, unescapeString]

theorem trailing_escape_dropped_witness :
    escStateFrom 92 false [97] = false ∧
    unescapeString 92 ([97] ++ [92]) = unescapeString 92 [97] :=
  ⟨by decide, trailing_escape_dropped 92 [97] (by decide)⟩

/-- Claim C8: once no escape bytes remain in the output of one unescape
pass, a second pass on that output is a no-op. -/
theorem unescape_second_pass_noop (esc : Nat) (src : List Nat)
    (h : esc ∉ unescapeString esc src) :
    unescapeString esc (unescapeString esc src) = unescapeString esc src :=
  unescapeLoop_of_not_mem esc (unescapeString esc src) h

theorem unescape_second_pass_noop_witness :
    (92 : Nat) ∉ unescapeString 92 [97, 92, 98] ∧
    unescapeString 92 (unescapeString 92 [97, 92, 98]) =
      unescapeString 92 [97, 92, 98] :=
  ⟨by decide, unescape_second_pass_noop 92 [97, 92, 98] (by decide)⟩

/-- Claim C9: unescape is a total function (it is defined on every input
and signals no error) and the resulting length — the number of bytes
written to the caller-supplied destination — never exceeds the input
length. -/
theorem unescape_total_and_bounded (esc : Nat) (src : List Nat) :
    (unescapeString esc src).length ≤ src.length :=
  unescapeLoop_length_le esc src false

/-- Claim C10: the byte 0 is what the generator treats as "no escaping
configured" (a string slot still gets a routine), yet an unescaper
configured with escape byte 0 still treats every NUL input byte as an
escape marker: the first NUL toggles the escape state and is dropped,
the output is strictly shorter than the input, and unescape is not the
identity on any input containing a NUL. -/
theorem nul_escape_byte_still_escapes (src pre suf : List Nat)
    (hsrc : (0 : Nat) ∈ src) (hpre : (0 : Nat) ∉ pre) :
    (codegenWriteSlot 0 TYPE_STRING true true true).isSome = true ∧
    (unescapeString 0 src).length < src.length ∧
    unescapeString 0 src ≠ src ∧
    unescapeString 0 (pre ++ 0 :: suf) = pre ++ unescapeLoop 0 suf true := by
  have hlt : (unescapeString 0 src).length < src.length :=
    unescapeLoop_length_lt_of_mem 0 src hsrc
  refine ⟨rfl, hlt, ?_, ?_⟩
  · intro he
    rw [he] at hlt
    exact Nat.lt_irrefl _ hlt
  · rw [unescapeString, unescapeLoop_append 0 pre (0 :: suf) false,
      escStateFrom_of_not_mem 0 pre hpre, unescapeLoop_of_not_mem 0 pre hpre]
    congr 1

theorem nul_escape_byte_still_escapes_witness :
    (0 : Nat) ∈ ([97, 0, 98] : List Nat) ∧ (0 : Nat) ∉ ([97] : List Nat) ∧
    ((codegenWriteSlot 0 TYPE_STRING true true true).isSome = true ∧
     (unescapeString 0 [97, 0, 98]).length < ([97, 0, 98] : List Nat).length ∧
     unescapeString 0 [97, 0, 98] ≠ [97, 0, 98] ∧
     unescapeString 0 ([97] ++ 0 :: [98]) = [97] ++ unescapeLoop 0 [98] true) :=
  ⟨by decide, by decide,
    nul_escape_byte_still_escapes [97, 0, 98] [97] [98] (by decide) (by decide)⟩

end Impala.TextConverter
